import Mathlib

/-!
Shallow embedding of the core of the Pikafish_zh xiangqi engine
(`src/types.h`, `src/bitboard.cpp`, `src/search.cpp`, `src/evaluate.cpp`,
`src/timeman.cpp`, `src/uci.cpp`) together with theorems checking the
specification's statements about it.

Machine integers of the source are modelled as `ℤ`/`ℕ`; C++ integer division
(which truncates toward zero) is modelled by `Int.tdiv`; the `uint16_t`
packing of `Move` is modelled with explicit `% 65536`.
-/

namespace Pikafish

/-! ### Constants and value helpers from `types.h` -/

/-- `MAX_PLY` from `types.h`. -/
def MAX_PLY : ℤ := 246

/-- `VALUE_ZERO` from `types.h`. -/
def VALUE_ZERO : ℤ := 0

/-- `VALUE_DRAW` from `types.h`. -/
def VALUE_DRAW : ℤ := 0

/-- `VALUE_NONE` from `types.h`. -/
def VALUE_NONE : ℤ := 32002

/-- `VALUE_INFINITE` from `types.h`. -/
def VALUE_INFINITE : ℤ := 32001

/-- `VALUE_MATE` from `types.h`. -/
def VALUE_MATE : ℤ := 32000

/-- `VALUE_MATE_IN_MAX_PLY = VALUE_MATE - MAX_PLY` from `types.h`. -/
def VALUE_MATE_IN_MAX_PLY : ℤ := VALUE_MATE - MAX_PLY

/-- `VALUE_MATED_IN_MAX_PLY = -VALUE_MATE_IN_MAX_PLY` from `types.h`. -/
def VALUE_MATED_IN_MAX_PLY : ℤ := -VALUE_MATE_IN_MAX_PLY

/-- `is_valid(Value)` from `types.h`: `value != VALUE_NONE`. -/
def is_valid (v : ℤ) : Prop := v ≠ VALUE_NONE

instance (v : ℤ) : Decidable (is_valid v) := by unfold is_valid; infer_instance

/-- `is_win(Value)` from `types.h`: `value >= VALUE_MATE_IN_MAX_PLY`. -/
def is_win (v : ℤ) : Prop := v ≥ VALUE_MATE_IN_MAX_PLY

instance (v : ℤ) : Decidable (is_win v) := by unfold is_win; infer_instance

/-- `is_loss(Value)` from `types.h`: `value <= VALUE_MATED_IN_MAX_PLY`. -/
def is_loss (v : ℤ) : Prop := v ≤ VALUE_MATED_IN_MAX_PLY

instance (v : ℤ) : Decidable (is_loss v) := by unfold is_loss; infer_instance

/-- `mate_in(ply)` from `types.h`: `VALUE_MATE - ply`. -/
def mate_in (ply : ℤ) : ℤ := VALUE_MATE - ply

/-- `mated_in(ply)` from `types.h`: `-VALUE_MATE + ply`. -/
def mated_in (ply : ℤ) : ℤ := -VALUE_MATE + ply

/-! ### Board geometry from `types.h` and the cannon reference routine from
`bitboard.cpp`.  Squares are numbered 0..89, `file = s % 9`, `rank = s / 9`;
directions are `NORTH = 9`, `SOUTH = -9`, `EAST = 1`, `WEST = -1`. -/

/-- `FILE_NB` from `types.h`. -/
def FILE_NB : ℤ := 9

/-- `is_ok(Square)` from `types.h`: `s >= SQ_A0 && s <= SQ_I9`. -/
def square_is_ok (s : ℤ) : Prop := 0 ≤ s ∧ s ≤ 89

instance (s : ℤ) : Decidable (square_is_ok s) := by unfold square_is_ok; infer_instance

/-- `file_of(Square)` from `types.h`: `s % FILE_NB`. -/
def file_of (s : ℤ) : ℤ := s % FILE_NB

/-- `rank_of(Square)` from `types.h`: `s / FILE_NB`. -/
def rank_of (s : ℤ) : ℤ := s / FILE_NB

/-- `SquareDistance[a][b]` from `bitboard.cpp`:
`max(distance<File>(a, b), distance<Rank>(a, b))`. -/
def distance (a b : ℤ) : ℤ := max |file_of a - file_of b| |rank_of a - rank_of b|

/-- The squares visited by one direction of the inner loop of
`sliding_attack` (`bitboard.cpp`):
`for (Square s = sq + d; is_ok(s) && distance(s - d, s) == 1; s += d)`.
The fuel argument (10 at call sites) bounds the walk; a board ray has at most
9 steps, so the fuel never cuts a ray short for an on-board start square. -/
def slideRay : ℕ → ℤ → ℤ → List ℤ
  | 0, _, _ => []
  | fuel + 1, prev, d =>
    let s := prev + d
    if square_is_ok s ∧ distance prev s = 1 then s :: slideRay fuel s d else []

/-- The body of `sliding_attack<CANNON>` (`bitboard.cpp`) along one ray,
carrying the `hurdle` flag: per square `s`, first `if (hurdle) attack |= s;`,
then `if (occupied & s) { if (!hurdle) hurdle = true; else break; }`. -/
def cannonRay (occupied : ℤ → Bool) : List ℤ → Bool → List ℤ
  | [], _ => []
  | s :: rest, hurdle =>
    let here := if hurdle then [s] else []
    if occupied s then
      if hurdle then here else here ++ cannonRay occupied rest true
    else
      here ++ cannonRay occupied rest hurdle

/-- `sliding_attack<CANNON>(sq, occupied)` from `bitboard.cpp`: the union of
the per-direction scans over `{NORTH, SOUTH, EAST, WEST}`, as a list. -/
def sliding_attack_cannon (sq : ℤ) (occupied : ℤ → Bool) : List ℤ :=
  ([9, -9, 1, -1] : List ℤ).flatMap fun d => cannonRay occupied (slideRay 10 sq d) false

/-- Formalisation of the frozen claim's description of one cannon ray: the
non-capture squares before the screen are yielded, and after the screen the
next occupier is the only square added. -/
def cannonRayClaim (occupied : ℤ → Bool) (ray : List ℤ) : List ℤ :=
  ray.takeWhile (fun s => !occupied s) ++
    (match ray.dropWhile (fun s => !occupied s) with
     | [] => []
     | _ :: tail =>
       match tail.dropWhile (fun s => !occupied s) with
       | [] => []
       | cap :: _ => [cap])

/-- The frozen claim's reading of `sliding_attack<CANNON>`, over the same
four rays the source walks. -/
def sliding_attack_cannon_claim (sq : ℤ) (occupied : ℤ → Bool) : List ℤ :=
  ([9, -9, 1, -1] : List ℤ).flatMap fun d => cannonRayClaim occupied (slideRay 10 sq d)

/-- Amended reading of one cannon ray: nothing is yielded before the first
occupier (the screen); after the screen every square up to and including the
next occupier is yielded; then the scan stops. -/
def cannonRayAmended (occupied : ℤ → Bool) (ray : List ℤ) : List ℤ :=
  match ray.dropWhile (fun s => !occupied s) with
  | [] => []
  | _ :: tail =>
    tail.takeWhile (fun s => !occupied s) ++
      (match tail.dropWhile (fun s => !occupied s) with
       | [] => []
       | cap :: _ => [cap])

/-- The amended per-ray reading applied to the same four rays. -/
def sliding_attack_cannon_amended (sq : ℤ) (occupied : ℤ → Bool) : List ℤ :=
  ([9, -9, 1, -1] : List ℤ).flatMap fun d => cannonRayAmended occupied (slideRay 10 sq d)

/-- Concrete occupancy used as the counterexample input for the cannon claim:
pieces on squares 31 (E3) and 58 (E6) only. -/
def occupancyExample (s : ℤ) : Bool := s == 31 || s == 58

/-! ### Transposition-table value scaling from `search.cpp` -/

/-- `value_to_tt(v, ply)` from `search.cpp`:
`is_win(v) ? v + ply : is_loss(v) ? v - ply : v`. -/
def value_to_tt (v ply : ℤ) : ℤ :=
  if is_win v then v + ply else if is_loss v then v - ply else v

/-- `value_from_tt(v, ply, r60c)` from `search.cpp`. -/
def value_from_tt (v ply r60c : ℤ) : ℤ :=
  if ¬is_valid v then VALUE_NONE
  else if is_win v then
    if VALUE_MATE - v > 120 - r60c then VALUE_MATE_IN_MAX_PLY - 1 else v - ply
  else if is_loss v then
    if VALUE_MATE + v > 120 - r60c then VALUE_MATED_IN_MAX_PLY + 1 else v + ply
  else v

/-! ### Search fragments from `search.cpp` -/

/-- `value_draw(nodes)` from `search.cpp`:
`VALUE_DRAW - 1 + Value(nodes & 0x2)`. -/
def value_draw (nodes : ℕ) : ℤ := VALUE_DRAW - 1 + ((nodes &&& 2 : ℕ) : ℤ)

/-- The stop/max-ply check at the top of `Search::Worker::search` at non-root
nodes (`search.cpp` step 2):
`if (threads.stop.load(...) || ss->ply >= MAX_PLY) return (ss->ply >= MAX_PLY
&& !ss->inCheck) ? evaluate(pos) : value_draw(thisThread->nodes);`.
The static evaluation of the position is abstracted as `evalValue`; the
result is `none` when the guard does not fire. -/
def searchStopPlyCheck (stop : Bool) (ply : ℤ) (inCheck : Bool) (evalValue : ℤ)
    (nodes : ℕ) : Option ℤ :=
  if stop = true ∨ MAX_PLY ≤ ply then
    some (if MAX_PLY ≤ ply ∧ inCheck = false then evalValue else value_draw nodes)
  else none

/-- The stop check after a move has been searched and undone
(`search.cpp` step 19): `if (threads.stop.load(...)) return VALUE_ZERO;`. -/
def searchMoveStopCheck (stop : Bool) : Option ℤ :=
  if stop = true then some VALUE_ZERO else none

/-- Step 3 of `Search::Worker::search` at non-root nodes (`search.cpp`):
mate distance pruning.  `alpha = max(mated_in(ply), alpha);
beta = min(mate_in(ply + 1), beta); if (alpha >= beta) return alpha;`.
`Sum.inl` is the early return, `Sum.inr` the updated window. -/
def mateDistancePruning (alpha beta ply : ℤ) : ℤ ⊕ (ℤ × ℤ) :=
  let a := max (mated_in ply) alpha
  let b := min (mate_in (ply + 1)) beta
  if a ≥ b then Sum.inl a else Sum.inr (a, b)

/-! ### Static evaluation from `evaluate.cpp` -/

/-- `std::clamp(v, lo, hi)`. -/
def std_clamp (v lo hi : ℤ) : ℤ := if v < lo then lo else if hi < v then hi else v

/-- `Eval::evaluate` from `evaluate.cpp`, with the two scalars returned by
`network.evaluate` taken as the inputs `psqt` and `positional`,
`pos.major_material()` as `majorMaterial` and `pos.rule60_count()` as
`rule60`.  All divisions are C++ truncating divisions. -/
def evaluate (psqt positional optimism majorMaterial rule60 : ℤ) : ℤ :=
  let nnue := psqt + positional
  let nnueComplexity := |psqt - positional|
  let optimism2 := optimism + Int.tdiv (optimism * nnueComplexity) 485
  let nnue2 := nnue - Int.tdiv (nnue * nnueComplexity) 11683
  let mm := Int.tdiv majorMaterial 40
  let v := Int.tdiv (nnue2 * (443 + mm) + optimism2 * (76 + mm)) 503
  let v2 := v - Int.tdiv (v * rule60) 267
  std_clamp v2 (VALUE_MATED_IN_MAX_PLY + 1) (VALUE_MATE_IN_MAX_PLY - 1)

/-! ### Time management from `timeman.cpp` -/

/-- Truncation toward zero of a rational; models the C++ cast of a `double`
to the integer `TimePoint`. -/
def ratTrunc (q : ℚ) : ℤ := if 0 ≤ q then ⌊q⌋ else -⌊-q⌋

/-- `TimeManagement::init` from `timeman.cpp`, restricted to the outputs
`(optimumTime, maximumTime)` (`none` models the early return when
`limits.time[us] == 0`, in which case neither output is set).  Double
arithmetic on time quantities is modelled exactly over `ℚ`, with casts to
`TimePoint` as truncation toward zero.  The two scale factors `optScale` and
`maxScale`, which the source computes with `log10`/`pow` on doubles (and, for
`optScale`, the `originalTimeAdjust` state and the ply), are abstracted as
input parameters; everything else follows the source line by line. -/
def timeManagementInit (npmsec time0 inc0 moveOverhead0 movestogo availableNodes : ℤ)
    (optScale maxScale : ℚ) (ponder : Bool) : Option (ℤ × ℤ) :=
  if time0 = 0 then none
  else
    let useNodesTime : Bool := npmsec != 0
    let availableNodes1 :=
      if useNodesTime && (availableNodes == -1) then npmsec * time0 else availableNodes
    let time := if useNodesTime then availableNodes1 else time0
    let inc := if useNodesTime then inc0 * npmsec else inc0
    let moveOverhead := if useNodesTime then moveOverhead0 * npmsec else moveOverhead0
    let scaleFactor := if useNodesTime then npmsec else 1
    let scaledTime := Int.tdiv time scaleFactor
    let scaledInc := Int.tdiv inc scaleFactor
    let mtg0 := if movestogo ≠ 0 then min movestogo 60 else 60
    let mtg :=
      if scaledTime < 1000 ∧
          ((scaledInc = 0 ∧ 0 < mtg0) ∨ (mtg0 : ℚ) / (scaledInc : ℚ) > 1 / 20) then
        ratTrunc ((scaledTime : ℚ) * (1 / 20))
      else mtg0
    let timeLeft := max 1 (time + inc * (mtg - 1) - moveOverhead * (2 + mtg))
    let optimumTime := ratTrunc (optScale * (timeLeft : ℚ))
    let maximumTime :=
      ratTrunc (min ((81 : ℚ) / 100 * (time : ℚ) - (moveOverhead : ℚ))
        (maxScale * (optimumTime : ℚ))) - 10
    let optimumTime2 := if ponder then optimumTime + Int.tdiv optimumTime 4 else optimumTime
    some (optimumTime2, maximumTime)

/-- `TimeManagement::advance_nodes_time(nodes)` from `timeman.cpp`:
`availableNodes = std::max(int64_t(0), availableNodes - nodes)`; returns the
new pool. -/
def advance_nodes_time (availableNodes nodes : ℤ) : ℤ :=
  max 0 (availableNodes - nodes)

/-! ### Move encoding from `types.h` and move rendering from `uci.cpp` -/

/-- The `Move(Square from, Square to)` constructor from `types.h`:
`data = (from << 7) + to` stored in a `uint16_t`. -/
def moveData (f t : ℕ) : ℕ := ((f <<< 7) + t) % 65536

/-- `Move::none().raw()`: 0. -/
def moveNone : ℕ := 0

/-- `Move::null().raw()`: 129. -/
def moveNull : ℕ := 129

/-- `Move::from_sq()` from `types.h`: `(data >> 7) & 0x7F`. -/
def from_sq (d : ℕ) : ℕ := (d >>> 7) &&& 0x7F

/-- `Move::to_sq()` from `types.h`: `data & 0x7F`. -/
def to_sq (d : ℕ) : ℕ := d &&& 0x7F

/-- `UCIEngine::square` from `uci.cpp`:
`std::string{char('a' + file_of(s)), char('0' + rank_of(s))}`. -/
def squareStr (s : ℕ) : String :=
  String.mk [Char.ofNat ('a'.toNat + s % 9), Char.ofNat ('0'.toNat + s / 9)]

/-- `UCIEngine::move` from `uci.cpp`, on the raw 16-bit move data. -/
def moveToString (d : ℕ) : String :=
  if d = moveNone then "(none)"
  else if d = moveNull then "0000"
  else squareStr (from_sq d) ++ squareStr (to_sq d)

/-- `UCIEngine::to_move(pos, str)` from `uci.cpp`:
`for (const auto& m : MoveList<LEGAL>(pos)) if (str == move(m)) return m;
return Move::none();`.  `MoveList<LEGAL>(pos)` is not part of the sources;
the legal-move list of the position is abstracted as the input list. -/
def to_move (legalMoves : List ℕ) (str : String) : ℕ :=
  match legalMoves.find? (fun m => moveToString m == str) with
  | some m => m
  | none => moveNone

/-! ### Helper lemmas -/

/-- Masking with `0x7F` is reduction mod 128. -/
theorem land127_eq_mod (n : ℕ) : n &&& 127 = n % 128 := by
  have h := Nat.and_pow_two_sub_one_eq_mod n 7
  norm_num at h
  exact h

/-- For board squares the 16-bit container never wraps:
`(from << 7) + to = from * 128 + to`. -/
theorem moveData_eq (f t : ℕ) (hf : f < 90) (ht : t < 90) :
    moveData f t = f * 128 + t := by
  unfold moveData
  rw [Nat.shiftLeft_eq]
  norm_num
  omega

/-- Unpacking the origin square of a packed move. -/
theorem from_sq_moveData (f t : ℕ) (hf : f < 90) (ht : t < 90) :
    from_sq (moveData f t) = f := by
  rw [moveData_eq f t hf ht]
  unfold from_sq
  rw [Nat.shiftRight_eq_div_pow, land127_eq_mod]
  norm_num
  omega

/-- Unpacking the destination square of a packed move. -/
theorem to_sq_moveData (f t : ℕ) (hf : f < 90) (ht : t < 90) :
    to_sq (moveData f t) = t := by
  rw [moveData_eq f t hf ht]
  unfold to_sq
  rw [land127_eq_mod]
  omega

/-- `nodes & 0x2` is either 0 or 2. -/
theorem land_two_cases (n : ℕ) : n &&& 2 = 0 ∨ n &&& 2 = 2 := by
  have h : n &&& 2 ^ 1 = (n.testBit 1).toNat * 2 ^ 1 := Nat.and_two_pow n 1
  norm_num at h
  rcases Bool.eq_false_or_eq_true (n.testBit 1) with hb | hb <;> rw [hb] at h <;>
    simp at h <;> omega

/-! ### Claim theorems -/

/-- C3: at every non-root node, mate-distance pruning replaces alpha by
`max(mated_in(ply), alpha)` and beta by `min(mate_in(ply+1), beta)`, and
returns the new alpha exactly when the clamped window is empty
(`alpha >= beta`). -/
theorem c3_mate_distance_pruning (alpha beta ply : ℤ) :
    mateDistancePruning alpha beta ply =
      if min (mate_in (ply + 1)) beta ≤ max (mated_in ply) alpha then
        Sum.inl (max (mated_in ply) alpha)
      else
        Sum.inr (max (mated_in ply) alpha, min (mate_in (ply + 1)) beta) := rfl

/-- C2 (amended): for every valid stored value, `value_from_tt` inverts
`value_to_tt` whenever the 60-move downgrade condition (taken on the stored
value) does not fire; when it fires, the result is `VALUE_MATE_IN_MAX_PLY - 1`
for wins and `VALUE_MATED_IN_MAX_PLY + 1` for losses (one inside the clamp
boundary, not the boundary itself). -/
theorem c2_tt_value_roundtrip (v ply r60 : ℤ) (hply : 0 ≤ ply)
    (hstored : is_valid (value_to_tt v ply)) :
    (¬(is_win (value_to_tt v ply) ∧ VALUE_MATE - value_to_tt v ply > 120 - r60) →
      ¬(is_loss (value_to_tt v ply) ∧ VALUE_MATE + value_to_tt v ply > 120 - r60) →
      value_from_tt (value_to_tt v ply) ply r60 = v) ∧
    (is_win (value_to_tt v ply) → VALUE_MATE - value_to_tt v ply > 120 - r60 →
      value_from_tt (value_to_tt v ply) ply r60 = VALUE_MATE_IN_MAX_PLY - 1) ∧
    (is_loss (value_to_tt v ply) → VALUE_MATE + value_to_tt v ply > 120 - r60 →
      value_from_tt (value_to_tt v ply) ply r60 = VALUE_MATED_IN_MAX_PLY + 1) := by
  simp only [value_from_tt, value_to_tt, is_valid, is_win, is_loss, VALUE_MATE_IN_MAX_PLY,
    VALUE_MATED_IN_MAX_PLY, VALUE_MATE, VALUE_NONE, MAX_PLY] at *
  refine ⟨fun h1 h2 => ?_, fun h1 h2 => ?_, fun h1 h2 => ?_⟩ <;>
    split_ifs at * <;> omega

/-- C2 witness: a mate score over the downgrade window round-trips. -/
theorem c2_tt_value_roundtrip_witness :
    (0 : ℤ) ≤ 10 ∧ is_valid (value_to_tt 31900 10) ∧
    value_from_tt (value_to_tt 31900 10) 10 0 = 31900 :=
  ⟨by norm_num, by decide,
   (c2_tt_value_roundtrip 31900 10 0 (by norm_num) (by decide)).1 (by decide) (by decide)⟩

/-- C2 counterexample: with `v = 31900`, `ply = 0`, `rule60 = 110` the
downgrade condition fires and the result is `VALUE_MATE_IN_MAX_PLY - 1`,
not the `+MATE_IN_MAX_PLY` the claim states (nor the original `v`). -/
theorem c2_tt_clamp_counterexample :
    is_win (value_to_tt 31900 0) ∧
    VALUE_MATE - value_to_tt 31900 0 > 120 - 110 ∧
    value_from_tt (value_to_tt 31900 0) 0 110 = VALUE_MATE_IN_MAX_PLY - 1 ∧
    value_from_tt (value_to_tt 31900 0) 0 110 ≠ VALUE_MATE_IN_MAX_PLY ∧
    value_from_tt (value_to_tt 31900 0) 0 110 ≠ 31900 := by decide

/-- C6: the static evaluation is clamped into
`[VALUE_MATED_IN_MAX_PLY + 1, VALUE_MATE_IN_MAX_PLY - 1]`, so it can never
be a mate-range score, whatever the network outputs, optimism, material and
rule-60 counter are. -/
theorem c6_evaluate_bounds (psqt positional optimism majorMaterial rule60 : ℤ) :
    VALUE_MATED_IN_MAX_PLY + 1 ≤ evaluate psqt positional optimism majorMaterial rule60 ∧
    evaluate psqt positional optimism majorMaterial rule60 ≤ VALUE_MATE_IN_MAX_PLY - 1 := by
  simp only [evaluate, std_clamp, VALUE_MATED_IN_MAX_PLY, VALUE_MATE_IN_MAX_PLY, VALUE_MATE,
    MAX_PLY]
  split_ifs <;> omega

/-- C8: the 7-bit packing of a move round-trips: for any board squares
`f, t` whose encoding is neither `Move::none()` nor `Move::null()`,
`from_sq` and `to_sq` recover `f` and `t`. -/
theorem c8_move_roundtrip (f t : ℕ) (hf : f < 90) (ht : t < 90)
    (_h0 : moveData f t ≠ moveNone) (_h1 : moveData f t ≠ moveNull) :
    from_sq (moveData f t) = f ∧ to_sq (moveData f t) = t :=
  ⟨from_sq_moveData f t hf ht, to_sq_moveData f t hf ht⟩

/-- C8 witness: the packing round-trips at `from = 4`, `to = 40`. -/
theorem c8_move_roundtrip_witness :
    (4 : ℕ) < 90 ∧ (40 : ℕ) < 90 ∧ moveData 4 40 ≠ moveNone ∧ moveData 4 40 ≠ moveNull ∧
    (from_sq (moveData 4 40) = 4 ∧ to_sq (moveData 4 40) = 40) :=
  ⟨by decide, by decide, by decide, by decide,
   c8_move_roundtrip 4 40 (by decide) (by decide) (by decide) (by decide)⟩

/-- C10: `advance_nodes_time` lowers the per-game node pool to
`max(0, availableNodes - nodes)`, and the pool never becomes negative. -/
theorem c10_advance_nodes_time (availableNodes nodes : ℤ) :
    advance_nodes_time availableNodes nodes = max 0 (availableNodes - nodes) ∧
    0 ≤ advance_nodes_time availableNodes nodes :=
  ⟨rfl, le_max_left 0 _⟩

/-- C4 counterexample: a non-root node that observes the stop flag at the top
of `search` (here at ply 0, not in check) returns `value_draw(nodes)`, which
for `nodes = 0` is `-1`, not `VALUE_ZERO`. -/
theorem c4_stop_counterexample :
    searchStopPlyCheck true 0 false 777 0 = some (-1) ∧ (-1 : ℤ) ≠ VALUE_ZERO := by decide

/-- C4 (amended): a worker that observes the stop flag at the top of `search`
at a non-root node below `MAX_PLY` returns `value_draw(nodes)`, which is
either -1 or 1; the stop check after a searched move returns `VALUE_ZERO`. -/
theorem c4_stop_returns (ply : ℤ) (inCheck : Bool) (evalValue : ℤ) (nodes : ℕ)
    (hply : ply < MAX_PLY) :
    searchStopPlyCheck true ply inCheck evalValue nodes = some (value_draw nodes) ∧
    (value_draw nodes = -1 ∨ value_draw nodes = 1) ∧
    searchMoveStopCheck true = some VALUE_ZERO := by
  refine ⟨?_, ?_, rfl⟩
  · unfold searchStopPlyCheck
    rw [if_pos (Or.inl rfl), if_neg (fun h => absurd h.1 (not_le.mpr hply))]
  · unfold value_draw VALUE_DRAW
    rcases land_two_cases nodes with h | h <;> rw [h] <;> norm_num

/-- C4 witness: at ply 0 with zero nodes searched, the top-of-search stop
check answers -1 and the in-loop stop check answers `VALUE_ZERO`. -/
theorem c4_stop_returns_witness :
    (0 : ℤ) < MAX_PLY ∧
    (searchStopPlyCheck true 0 false 777 3 = some (value_draw 3) ∧
      (value_draw 3 = -1 ∨ value_draw 3 = 1) ∧
      searchMoveStopCheck true = some VALUE_ZERO) :=
  ⟨by decide, c4_stop_returns 0 false 777 3 (by decide)⟩

/-- With the hurdle already crossed, the cannon scan yields the free squares
up to, and including, the next occupier. -/
theorem cannonRay_hurdle_eq (occupied : ℤ → Bool) :
    ∀ ray : List ℤ,
      cannonRay occupied ray true =
        ray.takeWhile (fun s => !occupied s) ++
          (match ray.dropWhile (fun s => !occupied s) with
           | [] => []
           | cap :: _ => [cap])
  | [] => rfl
  | s :: rest => by
    by_cases h : occupied s = true
    · simp [cannonRay, h, List.takeWhile_cons, List.dropWhile_cons]
    · have h' : occupied s = false := by simpa using h
      simp [cannonRay, h', List.takeWhile_cons, List.dropWhile_cons,
        cannonRay_hurdle_eq occupied rest]

/-- Before the hurdle, the cannon scan yields nothing; once the first
occupier is crossed it behaves as `cannonRay_hurdle_eq` describes. -/
theorem cannonRay_start_eq (occupied : ℤ → Bool) :
    ∀ ray : List ℤ, cannonRay occupied ray false = cannonRayAmended occupied ray
  | [] => rfl
  | s :: rest => by
    by_cases h : occupied s = true
    · simp [cannonRay, cannonRayAmended, h, List.dropWhile_cons,
        cannonRay_hurdle_eq occupied rest]
    · have h' : occupied s = false := by simpa using h
      simp [cannonRay, cannonRayAmended, h', List.dropWhile_cons,
        cannonRay_start_eq occupied rest]

/-- C1 (amended): in each of the four orthogonal directions,
`sliding_attack<CANNON>` yields no square before crossing exactly one
occupier (the screen); after the screen it yields every square up to and
including the next occupier, and then the scan stops. -/
theorem c1_cannon_two_phase (sq : ℤ) (occupied : ℤ → Bool) :
    sliding_attack_cannon sq occupied = sliding_attack_cannon_amended sq occupied := by
  simp [sliding_attack_cannon, sliding_attack_cannon_amended, cannonRay_start_eq]

/-- C1 counterexample: with a cannon on E0 (square 4) and occupiers on E3
(31) and E6 (58), the claim's reading contains the pre-screen square 13 and
omits the post-screen empty square 40, while `sliding_attack<CANNON>` does
the opposite. -/
theorem c1_cannon_claim_counterexample :
    sliding_attack_cannon_claim 4 occupancyExample ≠ sliding_attack_cannon 4 occupancyExample ∧
    (13 : ℤ) ∈ sliding_attack_cannon_claim 4 occupancyExample ∧
    (13 : ℤ) ∉ sliding_attack_cannon 4 occupancyExample ∧
    (40 : ℤ) ∈ sliding_attack_cannon 4 occupancyExample ∧
    (40 : ℤ) ∉ sliding_attack_cannon_claim 4 occupancyExample := by decide

/-- C7: `UCIEngine::move` renders `Move::none()` as "(none)",
`Move::null()` as "0000", and any move built from board squares as the
four-character string file-rank-file-rank, files being the letters a..i
(offset at most 8 from the letter a) and ranks the digits 0..9. -/
theorem c7_move_rendering (f t : ℕ) (hf : f < 90) (ht : t < 90)
    (h0 : moveData f t ≠ moveNone) (h1 : moveData f t ≠ moveNull) :
    moveToString moveNone = "(none)" ∧ moveToString moveNull = "0000" ∧
    moveToString (moveData f t) =
      String.mk [Char.ofNat ('a'.toNat + f % 9), Char.ofNat ('0'.toNat + f / 9),
        Char.ofNat ('a'.toNat + t % 9), Char.ofNat ('0'.toNat + t / 9)] ∧
    f % 9 ≤ 8 ∧ f / 9 ≤ 9 ∧ t % 9 ≤ 8 ∧ t / 9 ≤ 9 := by
  refine ⟨rfl, rfl, ?_, by omega, by omega, by omega, by omega⟩
  unfold moveToString
  rw [if_neg h0, if_neg h1, from_sq_moveData f t hf ht, to_sq_moveData f t hf ht]
  rfl

/-- C7 witness: the move from square 4 (e0) to square 40 (e4) renders as
"e0e4". -/
theorem c7_move_rendering_witness :
    (4 : ℕ) < 90 ∧ (40 : ℕ) < 90 ∧ moveData 4 40 ≠ moveNone ∧ moveData 4 40 ≠ moveNull ∧
    moveToString (moveData 4 40) =
      String.mk [Char.ofNat ('a'.toNat + 4 % 9), Char.ofNat ('0'.toNat + 4 / 9),
        Char.ofNat ('a'.toNat + 40 % 9), Char.ofNat ('0'.toNat + 40 / 9)] :=
  ⟨by decide, by decide, by decide, by decide,
   (c7_move_rendering 4 40 (by decide) (by decide) (by decide) (by decide)).2.2.1⟩

/-- C9: `UCIEngine::to_move` returns either a member of the position's
legal-move list whose textual form equals the input string, or
`Move::none()` when no legal move matches; it never returns anything
outside the legal-move list. -/
theorem c9_to_move_sound (legalMoves : List ℕ) (str : String) :
    (to_move legalMoves str ∈ legalMoves ∧ moveToString (to_move legalMoves str) = str) ∨
    (to_move legalMoves str = moveNone ∧ ∀ m ∈ legalMoves, moveToString m ≠ str) := by
  rcases h : legalMoves.find? (fun m => moveToString m == str) with _ | m
  · right
    refine ⟨by simp [to_move, h], fun m hm => ?_⟩
    have hp := List.find?_eq_none.mp h m hm
    simpa using hp
  · left
    have hmem : m ∈ legalMoves := List.mem_of_find?_eq_some h
    have hp := List.find?_some h
    simp only [beq_iff_eq] at hp
    constructor <;> simp [to_move, h, hmem, hp]

/-- C5: in the sudden-death / Fischer regime (`movestogo == 0`) with a
nonzero clock that is not short (so `mtg` stays 60) and with the budget
expression at least 1 (so the `max(1, .)` guard is inactive),
`TimeManagement::init` computes `T = time + inc*(mtg-1) - overhead*(mtg+2)`
with `mtg = 60`, `optimum = optScale*T`, and
`maximum = min(0.81*time - overhead, maxScale*optimum) - 10`; with the
Ponder option on, optimum is then increased by a quarter of itself. -/
theorem c5_sudden_death_budgets (time inc moveOverhead availableNodes : ℤ)
    (optScale maxScale : ℚ) (ponder : Bool)
    (htime : time ≠ 0) (hlong : 1000 ≤ time)
    (hT : 1 ≤ time + inc * 59 - moveOverhead * 62) :
    timeManagementInit 0 time inc moveOverhead 0 availableNodes optScale maxScale ponder =
      (let T := time + inc * 59 - moveOverhead * 62
       let opt := ratTrunc (optScale * (T : ℚ))
       let maxi := ratTrunc (min ((81 : ℚ) / 100 * (time : ℚ) - (moveOverhead : ℚ))
         (maxScale * (opt : ℚ))) - 10
       some (if ponder then opt + Int.tdiv opt 4 else opt, maxi)) := by
  have hguard : ¬(time < 1000 ∧ (inc = 0 ∨ (1 : ℚ) / 20 < 60 / (inc : ℚ))) :=
    fun h => absurd h.1 (by omega)
  have hTQ : (1 : ℚ) ≤ (time : ℚ) + (inc : ℚ) * 59 - (moveOverhead : ℚ) * 62 := by
    exact_mod_cast hT
  simp only [timeManagementInit, if_neg htime]
  norm_num
  simp only [if_neg hguard]
  norm_num
  rw [max_eq_right hTQ]
  exact ⟨rfl, rfl⟩

/-- C5 witness: 60 s clock, 1 s increment, 10 ms overhead,
`optScale = 1/100`, `maxScale = 5`, Ponder on: `T = 118380`,
`optimum = 1183` raised to 1478 by Ponder, `maximum = 5905`. -/
theorem c5_sudden_death_budgets_witness :
    (60000 : ℤ) ≠ 0 ∧ (1000 : ℤ) ≤ 60000 ∧
    (1 : ℤ) ≤ 60000 + 1000 * 59 - 10 * 62 ∧
    timeManagementInit 0 60000 1000 10 0 (-1) (1 / 100) 5 true = some (1478, 5905) :=
  ⟨by norm_num, by norm_num, by norm_num,
   (c5_sudden_death_budgets 60000 1000 10 (-1) (1 / 100) 5 true (by norm_num) (by norm_num)
     (by norm_num)).trans (by norm_num [ratTrunc, min_def]; decide)⟩

/-- C9 witness: with the single legal move 4-to-40 ("e0e4"), `to_move`
finds exactly that move. -/
theorem c9_to_move_sound_witness :
    (to_move [552] "e0e4" ∈ [552] ∧ moveToString (to_move [552] "e0e4") = "e0e4") ∨
    (to_move [552] "e0e4" = moveNone ∧ ∀ m ∈ [552], moveToString m ≠ "e0e4") :=
  c9_to_move_sound [552] "e0e4"

end Pikafish
